import Mathlib

set_option maxHeartbeats 1000000

/- Verification of the kinematic steppers and animation drivers of the
   Physics visualization corpus.  All per-frame arithmetic in the source is
   on decimal constants, so it is embedded over the rationals, where the
   closed-form values are exact; derived constants that are square roots
   (escape speed, orbital periods, the brick-throw initial speed) are
   embedded over the reals or kept as parameters where only branch
   structure depends on them. -/

namespace Physics

/- Bounded trail buffer: the source pushes the sampled height and then
   drops the oldest entry once the length exceeds the cap
   (src/dualball-simulation/simulation.js lines 133-134, cap 60;
   src/wastage-simulation/simulation.js lines 121-122, cap 80). -/
def trailPush (cap : Nat) (trail : List ℚ) (h : ℚ) : List ℚ :=
  let t := trail ++ [h]
  if cap < t.length then t.tail else t

/- The (deltaTime, speedMultiplier) arguments of a frame entry, without the
   flag recording whether a wall-clock timer callback fired before it. -/
def stripTimer (e : Bool × ℚ × ℚ) : ℚ × ℚ := e.2

/- ================= DualBallSimulation =================
   src/dualball-simulation/simulation.js, class DualBallSimulation. -/

namespace DualBallSimulation

def g : ℚ := 49/5

def totalTime : ℚ := 5

def ball1FallTime : ℚ := 5

def ball2FallTime : ℚ := 3

def ball1Height : ℚ := 1/2 * g * ball1FallTime * ball1FallTime

def ball2Height : ℚ := 1/2 * g * ball2FallTime * ball2FallTime

def heightDifference : ℚ := ball1Height - ball2Height

def ball1ImpactVelocity : ℚ := g * ball1FallTime

def ball2ImpactVelocity : ℚ := g * ball2FallTime

structure Ball where
  dropTime : ℚ
  initialHeight : ℚ
  height : ℚ
  velocity : ℚ
  falling : Bool
  landed : Bool
  trail : List ℚ
deriving DecidableEq

structure Sim where
  time : ℚ
  ball1 : Ball
  ball2 : Ball
deriving DecidableEq

/- Constructor / reset state (lines 62-91 and 99-109). -/
def initBall1 : Ball :=
  { dropTime := 0, initialHeight := ball1Height, height := ball1Height,
    velocity := 0, falling := false, landed := false, trail := [] }

def initBall2 : Ball :=
  { dropTime := 2, initialHeight := ball2Height, height := ball2Height,
    velocity := 0, falling := false, landed := false, trail := [] }

def init : Sim := { time := 0, ball1 := initBall1, ball2 := initBall2 }

/- Body of the forEach over balls inside update (lines 119-143), applied
   at the already-advanced absolute time t. -/
def updateBall (t impactVelocity : ℚ) (b : Ball) : Ball :=
  if b.dropTime ≤ t ∧ b.landed = false then
    let fallTime := t - b.dropTime
    let h := b.initialHeight - 1/2 * g * fallTime * fallTime
    let v := g * fallTime
    let tr := trailPush 60 b.trail h
    if h ≤ 0 then
      { b with falling := true, height := 0, velocity := impactVelocity,
               landed := true, trail := tr }
    else
      { b with falling := true, height := h, velocity := v, trail := tr }
  else b

/- DualBallSimulation.update (lines 111-147): advance clamped absolute
   time, then recompute each ball from the closed form at that time. -/
def update (s : Sim) (deltaTime speedMultiplier : ℚ) : Sim :=
  let t0 := s.time + deltaTime * speedMultiplier
  let t := if totalTime < t0 then totalTime else t0
  { time := t,
    ball1 := updateBall t ball1ImpactVelocity s.ball1,
    ball2 := updateBall t ball2ImpactVelocity s.ball2 }

/- Return value of update (line 146): every ball landed. -/
def completed (s : Sim) : Bool := s.ball1.landed && s.ball2.landed

/- A sequence of update calls with (deltaTime, speedMultiplier) inputs. -/
def run (s : Sim) (ds : List (ℚ × ℚ)) : Sim :=
  ds.foldl (fun a d => update a d.1 d.2) s

/- As run, but each frame additionally carries a flag telling whether a
   wall-clock timer callback fired before it; the dual-ball page registers
   no state-mutating timers, so the stepper simply ignores the flag. -/
def runT (s : Sim) (es : List (Bool × ℚ × ℚ)) : Sim :=
  es.foldl (fun a e => update a e.2.1 e.2.2) s

/- Spec-side definition (textbook closed form): the height a ball dropped
   from h0 at dropT has at absolute time t, and its speed there. -/
def closedFormHeight (h0 dropT t : ℚ) : ℚ :=
  h0 - 1/2 * g * (max 0 (t - dropT)) * (max 0 (t - dropT))

def closedFormVelocity (dropT t : ℚ) : ℚ := g * max 0 (t - dropT)

/- Reachability invariant tying a ball to the closed form at the current
   clamped absolute time. -/
def BallInv (dropT h0 : ℚ) (t : ℚ) (b : Ball) : Prop :=
  b.dropTime = dropT ∧ b.initialHeight = h0 ∧
  b.height = closedFormHeight h0 dropT t ∧
  b.velocity = closedFormVelocity dropT t ∧
  (b.landed = true ↔ t = totalTime)

def Inv (s : Sim) : Prop :=
  0 ≤ s.time ∧ s.time ≤ totalTime ∧
  BallInv 0 ball1Height s.time s.ball1 ∧
  BallInv 2 ball2Height s.time s.ball2

instance (dropT h0 t : ℚ) (b : Ball) : Decidable (BallInv dropT h0 t b) := by
  unfold BallInv; infer_instance

instance (s : Sim) : Decidable (Inv s) := by
  unfold Inv; infer_instance

end DualBallSimulation

/- ================= HalfEscapeSimulation =================
   src/halfesc-simulation/simulation.js, class HalfEscapeSimulation. -/

namespace HalfEscapeSimulation

def G : ℝ := 6.674e-11

def M_earth : ℝ := 5.972e24

def R_earth : ℝ := 6.371e6

noncomputable def v_escape : ℝ := Real.sqrt (2 * G * M_earth / R_earth)

noncomputable def v_orbital : ℝ := v_escape / 2

def orbitRadius : ℝ := 2 * R_earth

def height : ℝ := R_earth

/- One iteration of the inner animate closure of play (lines 132-142): the
   angle advances by the fixed angularSpeed = 0.02 rad on every scheduled
   frame; the callback never reads a timestamp or a time delta. -/
def angularSpeed : ℚ := 1/50

def animateStep (angle : ℚ) : ℚ := angle + angularSpeed

/- The angle after a sequence of frames whose wall-clock durations are
   given by dts; each duration is ignored by the loop body. -/
def runFrames (angle : ℚ) (dts : List ℚ) : ℚ :=
  dts.foldl (fun a _ => animateStep a) angle

end HalfEscapeSimulation

/- ================= BrickThrowSimulation =================
   src/wastage-simulation/simulation.js, class BrickThrowSimulation. -/

namespace BrickThrowSimulation

inductive Phase
  | throwing
  | ascending
  | atTarget
  | continuing
  | atMax
  | descending
  | landed
deriving DecidableEq

/- Position of a phase in the declaration order; used to let simp decide
   equalities between phase literals. -/
def phaseIdx : Phase → Nat
  | Phase.throwing => 0
  | Phase.ascending => 1
  | Phase.atTarget => 2
  | Phase.continuing => 3
  | Phase.atMax => 4
  | Phase.descending => 5
  | Phase.landed => 6

structure Consts where
  g : ℚ
  targetHeight : ℚ
  initialVelocity : ℚ
  maxHeight : ℚ
deriving DecidableEq

/- The source fixes g = 10, targetHeight = 10, velocityAtTarget = 6 and
   derives initialVelocity = sqrt(6*6 + 2*10*10) = sqrt 236 (irrational,
   kept here as the parameter u) and maxHeight = 10 + 6*6/(2*10) = 59/5
   exactly (calculateEnergetics, lines 54-94). -/
def consts (u : ℚ) : Consts :=
  { g := 10, targetHeight := 10, initialVelocity := u, maxHeight := 59/5 }

structure State where
  time : ℚ
  height : ℚ
  velocity : ℚ
  phase : Phase
  reachedTarget : Bool
  reachedMax : Bool
  trail : List ℚ
  currentKE : ℚ
  currentPE : ℚ
  currentTotal : ℚ
deriving DecidableEq

/- reset (lines 96-104).  The three energy fields are only assigned inside
   update in the source; they start at 0 here. -/
def init (c : Consts) : State :=
  { time := 0, height := 0, velocity := c.initialVelocity, phase := Phase.throwing,
    reachedTarget := false, reachedMax := false, trail := [],
    currentKE := 0, currentPE := 0, currentTotal := 0 }

/- The deferred setTimeout callbacks registered by update (lines 140-144
   and 148-153).  They fire on the wall clock, between frames, and are
   guarded by a re-check of the phase. -/
def fireTimer (s : State) : State :=
  match s.phase with
  | Phase.atTarget => { s with phase := Phase.continuing }
  | Phase.atMax => { s with phase := Phase.descending, time := 0 }
  | _ => s

/- BrickThrowSimulation.update (lines 106-175): the synchronous body of one
   call.  In the atTarget and atMax phases the source only registers a
   setTimeout (modelled separately by fireTimer) and mutates nothing. -/
def update (c : Consts) (s : State) (deltaTime speedMultiplier : ℚ) : State :=
  let s1 : State := { s with time := s.time + deltaTime * speedMultiplier }
  let s2 : State :=
    if s1.phase = Phase.throwing ∧ 3/10 < s1.time then
      { s1 with phase := Phase.ascending, time := 0 }
    else s1
  let s3 : State :=
    if s2.phase = Phase.ascending ∨ s2.phase = Phase.continuing then
      let v := c.initialVelocity - c.g * s2.time
      let h := c.initialVelocity * s2.time - 1/2 * c.g * s2.time * s2.time
      let sa : State := { s2 with velocity := v, height := h,
                                  trail := trailPush 80 s2.trail h }
      let sb : State :=
        if c.targetHeight ≤ sa.height ∧ sa.reachedTarget = false then
          { sa with reachedTarget := true, phase := Phase.atTarget }
        else sa
      if sb.velocity ≤ 0 then
        { sb with phase := Phase.atMax, reachedMax := true,
                  height := c.maxHeight, velocity := 0 }
      else sb
    else if s2.phase = Phase.descending then
      let v := -(c.g * s2.time)
      let h := c.maxHeight - 1/2 * c.g * s2.time * s2.time
      let sa : State := { s2 with velocity := v, height := h,
                                  trail := trailPush 80 s2.trail h }
      if sa.height ≤ 0 then { sa with height := 0, phase := Phase.landed } else sa
    else s2
  { s3 with currentKE := 1/2 * s3.velocity * s3.velocity,
            currentPE := c.g * max 0 s3.height,
            currentTotal := 1/2 * s3.velocity * s3.velocity + c.g * max 0 s3.height }

/- One frame preceded by an optional timer firing, and a whole run: each
   list entry tells whether a pending setTimeout callback ran before the
   frame, then gives the (deltaTime, speedMultiplier) arguments.  The
   flag is a free input here, so these runs over-approximate the real
   event interleavings (every schedule the program can exhibit is an
   instance); the safety invariants proved over all such runs therefore
   cover the program.  runTimers below refines this by tracking timer
   registration. -/
def updateT (c : Consts) (fired : Bool) (s : State) (deltaTime speedMultiplier : ℚ) :
    State :=
  update c (if fired then fireTimer s else s) deltaTime speedMultiplier

def runT (c : Consts) (s : State) (es : List (Bool × ℚ × ℚ)) : State :=
  es.foldl (fun a e => updateT c e.1 a e.2.1 e.2.2) s

/- Rational stand-in for the irrational initial speed sqrt 236 = 15.362...
   used to evaluate concrete traces; every branch decision taken in the
   traces below is the same for 77/5 = 15.4 as for sqrt 236. -/
def sampleConsts : Consts := consts (77/5)

/- A run that lands the brick: throw, rise past the target to the apex,
   then (after the apex timer fires) fall to the ground. -/
def landingRun : List (Bool × ℚ × ℚ) :=
  [(false, 2/5, 1), (false, 8/5, 1), (true, 8/5, 1)]

def landedState : State := runT sampleConsts (init sampleConsts) landingRun

/- The two deferred callback bodies separately (lines 140-144 and
   148-153); each re-checks the phase when it fires, so a stale callback
   is a no-op. -/
def fireTargetTimer (s : State) : State :=
  if s.phase = Phase.atTarget then { s with phase := Phase.continuing } else s

def fireApexTimer (s : State) : State :=
  if s.phase = Phase.atMax then { s with phase := Phase.descending, time := 0 } else s

/- Registration-aware frame step.  The accumulator carries the state and
   two flags telling whether a target / apex setTimeout is currently
   pending; a frame entry (fireTarget, fireApex, deltaTime,
   speedMultiplier) says which pending callbacks the wall clock delivers
   before the frame.  A fire flag has an effect only when the matching
   timer is pending, and a timer becomes pending exactly when an update
   call begins in the atTarget / atMax phase — the only places the source
   registers a setTimeout.  (Each phase is entered at most once and the
   callbacks are phase-guarded, so one pending flag per timer is a
   faithful account of the source's possibly-multiple identical
   registrations.) -/
def stepTimers (c : Consts) (a : State × Bool × Bool) (e : Bool × Bool × ℚ × ℚ) :
    State × Bool × Bool :=
  let s1 := if e.1 = true ∧ a.2.1 = true then fireTargetTimer a.1 else a.1
  let s2 := if e.2.1 = true ∧ a.2.2 = true then fireApexTimer s1 else s1
  let tp := if e.1 = true then false else a.2.1
  let ap := if e.2.1 = true then false else a.2.2
  let tp2 := if s2.phase = Phase.atTarget then true else tp
  let ap2 := if s2.phase = Phase.atMax then true else ap
  (update c s2 e.2.2.1 e.2.2.2, tp2, ap2)

def runTimers (c : Consts) (s : State) (es : List (Bool × Bool × ℚ × ℚ)) :
    State × Bool × Bool :=
  es.foldl (stepTimers c) (s, false, false)

/- The (deltaTime, speedMultiplier) arguments of a registration-aware
   frame entry. -/
def stripFrame (e : Bool × Bool × ℚ × ℚ) : ℚ × ℚ := e.2.2

/- Realizable schedules that differ only in whether the apex setTimeout —
   registered by the third frame, which begins in the atMax phase — fires
   on the wall clock before the fourth frame. -/
def timerRunA : List (Bool × Bool × ℚ × ℚ) :=
  [(false, false, 2/5, 1), (false, false, 8/5, 1),
   (false, false, 1/2, 1), (false, true, 1/2, 1)]

def timerRunB : List (Bool × Bool × ℚ × ℚ) :=
  [(false, false, 2/5, 1), (false, false, 8/5, 1),
   (false, false, 1/2, 1), (false, false, 1/2, 1)]

end BrickThrowSimulation

/- ================= Kepler ratio simulation =================
   src/unnamed/part_001 (Kepler third-law page): calculatePeriod and the
   module-level constants T1, T2, PERIOD_RATIO (lines 10-36). -/

namespace KeplerSimulation

def G : ℝ := 6.6743e-11

def M_sun : ℝ := 1.989e30

def R1 : ℝ := 1e12

def R2 : ℝ := 1e10

noncomputable def calculatePeriod (R : ℝ) : ℝ :=
  2 * Real.pi * Real.sqrt (R ^ 3 / (G * M_sun))

noncomputable def T1 : ℝ := calculatePeriod R1

noncomputable def T2 : ℝ := calculatePeriod R2

/- PERIOD_RATIO in the source. -/
noncomputable def periodRatio : ℝ := T1 / T2

end KeplerSimulation

/- ================= Animation-frame drivers =================
   The per-frame delta each animate callback passes to its stepper, as a
   function of the new timestamp and the stored lastTimestamp (both in
   milliseconds). -/

namespace DriverLoop

/- dualball line 387, wastage line 436, stonethrow line 142, orbitalspeed
   line 191, satmass line 697 (main loop), forcelaw line 471, and others:
   clamped. -/
def clampedDelta (timestamp lastTimestamp : ℚ) : ℚ :=
  min ((timestamp - lastTimestamp) / 1000) (1/10)

/- freefall line 348, wavespeed line 639, dualball second script line
   1022, satmass second loop (MaxHeightSimulation.animate) line 1036,
   part_003 line 568: seconds, but no clamp. -/
def freefallDelta (timestamp lastTimestamp : ℚ) : ℚ :=
  (timestamp - lastTimestamp) / 1000

/- gravity line 380: raw millisecond difference, no clamp. -/
def gravityDelta (timestamp lastTimestamp : ℚ) : ℚ :=
  timestamp - lastTimestamp

end DriverLoop

namespace DualBallSimulation

theorem updateBall_inv (dropT h0 impact t u : ℚ)
    (hd5 : dropT < totalTime)
    (hh0 : h0 = 1/2 * g * (totalTime - dropT) * (totalTime - dropT))
    (himp : impact = g * (totalTime - dropT))
    (htu : t ≤ u) (hu5 : u ≤ totalTime)
    (b : Ball) (hb : BallInv dropT h0 t b) :
    BallInv dropT h0 u (updateBall u impact b) := by
  obtain ⟨hbd, hbh, hbheight, hbvel, hbland⟩ := hb
  have hgpos : (0:ℚ) < g := by norm_num [g]
  unfold updateBall
  rw [hbd]
  by_cases hcond : dropT ≤ u ∧ b.landed = false
  · rw [if_pos hcond]
    obtain ⟨hdu, hland⟩ := hcond
    rw [hland] at hbland
    simp only [Bool.false_eq_true, false_iff] at hbland
    by_cases hle : b.initialHeight - 1/2 * g * (u - dropT) * (u - dropT) ≤ 0
    · simp only [hle, if_pos]
      have hueq : u = totalTime := by
        by_contra hne
        have hlt : u < totalTime := lt_of_le_of_ne hu5 hne
        have key : 1/2 * g * (u - dropT) * (u - dropT)
            < 1/2 * g * (totalTime - dropT) * (totalTime - dropT) := by
          nlinarith [mul_pos (sub_pos.mpr hlt) (sub_pos.mpr hd5),
            mul_nonneg (le_of_lt (sub_pos.mpr hlt)) (sub_nonneg.mpr hdu), hgpos]
        rw [hbh, hh0] at hle
        linarith
      subst hueq
      refine ⟨rfl, hbh, ?_, ?_, by simp⟩
      · simp only [closedFormHeight]
        rw [max_eq_right (by linarith)]
        nlinarith [hbh]
      · simp only [closedFormVelocity]
        rw [max_eq_right (by linarith), himp]
    · simp only [hle, if_neg, if_false]
      have hune : u ≠ totalTime := by
        intro h
        subst h
        rw [hbh, hh0] at hle
        simp at hle
      refine ⟨rfl, hbh, ?_, ?_, by simp [hune, hland]⟩
      · simp only [closedFormHeight]
        rw [max_eq_right (by linarith), hbh]
      · simp only [closedFormVelocity]
        rw [max_eq_right (by linarith)]
  · rw [if_neg hcond]
    rcases not_and_or.mp hcond with hdu | hland2
    · have hud : u < dropT := lt_of_not_le hdu
      have htd : t < dropT := lt_of_le_of_lt htu hud
      have htne : t ≠ totalTime := by intro h; rw [h] at htd; linarith
      have hune : u ≠ totalTime := by intro h; rw [h] at hud; linarith
      refine ⟨hbd, hbh, ?_, ?_, ?_⟩
      · rw [hbheight]
        simp only [closedFormHeight]
        rw [max_eq_left (by linarith), max_eq_left (by linarith)]
      · rw [hbvel]
        simp only [closedFormVelocity]
        rw [max_eq_left (by linarith), max_eq_left (by linarith)]
      · rw [hbland]
        simp [htne, hune]
    · have hlt : b.landed = true := by
        cases hbl : b.landed
        · exact absurd hbl hland2
        · rfl
      have hteq : t = totalTime := hbland.mp hlt
      have hueq : u = totalTime := le_antisymm hu5 (hteq ▸ htu)
      rw [hueq, ← hteq]
      exact ⟨hbd, hbh, hbheight, hbvel, hbland⟩

theorem update_inv (s : Sim) (deltaTime speedMultiplier : ℚ)
    (hd : 0 ≤ deltaTime) (hm : 0 ≤ speedMultiplier) (hs : Inv s) :
    Inv (update s deltaTime speedMultiplier) := by
  obtain ⟨hs0, hs5, hb1, hb2⟩ := hs
  have hdm : 0 ≤ deltaTime * speedMultiplier := mul_nonneg hd hm
  have hball1 : ball1Height = 1/2 * g * (totalTime - 0) * (totalTime - 0) := by
    norm_num [ball1Height, g, ball1FallTime, totalTime]
  have hball2 : ball2Height = 1/2 * g * (totalTime - 2) * (totalTime - 2) := by
    norm_num [ball2Height, g, ball2FallTime, totalTime]
  have himp1 : ball1ImpactVelocity = g * (totalTime - 0) := by
    norm_num [ball1ImpactVelocity, ball1FallTime, totalTime]
  have himp2 : ball2ImpactVelocity = g * (totalTime - 2) := by
    norm_num [ball2ImpactVelocity, ball2FallTime, g, totalTime]
  simp only [update]
  split_ifs with hc
  · exact ⟨by norm_num [totalTime], le_refl totalTime,
      updateBall_inv 0 ball1Height ball1ImpactVelocity s.time totalTime
        (by norm_num [totalTime]) hball1 himp1 hs5 (le_refl _) s.ball1 hb1,
      updateBall_inv 2 ball2Height ball2ImpactVelocity s.time totalTime
        (by norm_num [totalTime]) hball2 himp2 hs5 (le_refl _) s.ball2 hb2⟩
  · have hle : s.time + deltaTime * speedMultiplier ≤ totalTime := le_of_not_lt hc
    have hst : s.time ≤ s.time + deltaTime * speedMultiplier := by linarith
    have ht0 : (0:ℚ) ≤ s.time + deltaTime * speedMultiplier := by linarith
    exact ⟨ht0, hle,
      updateBall_inv 0 ball1Height ball1ImpactVelocity s.time _
        (by norm_num [totalTime]) hball1 himp1 hst hle s.ball1 hb1,
      updateBall_inv 2 ball2Height ball2ImpactVelocity s.time _
        (by norm_num [totalTime]) hball2 himp2 hst hle s.ball2 hb2⟩

theorem inv_init : Inv init := by
  norm_num [Inv, BallInv, init, initBall1, initBall2, closedFormHeight, closedFormVelocity,
    ball1Height, ball2Height, g, ball1FallTime, ball2FallTime, totalTime, max_def]

theorem run_inv (ds : List (ℚ × ℚ)) (hds : ∀ p ∈ ds, 0 ≤ p.1 ∧ 0 ≤ p.2)
    (s : Sim) (hs : Inv s) : Inv (run s ds) := by
  induction ds generalizing s with
  | nil => exact hs
  | cons d tl ih =>
    have hd := hds d (List.mem_cons_self d tl)
    exact ih (fun p hp => hds p (List.mem_cons_of_mem d hp)) _
      (update_inv s d.1 d.2 hd.1 hd.2 hs)

theorem closedFormHeight_nonneg (dropT h0 t : ℚ) (hd5 : dropT ≤ totalTime)
    (hh0 : h0 = 1/2 * g * (totalTime - dropT) * (totalTime - dropT))
    (ht5 : t ≤ totalTime) :
    0 ≤ closedFormHeight h0 dropT t := by
  have hq0 : 0 ≤ max 0 (t - dropT) := le_max_left _ _
  have hq1 : max 0 (t - dropT) ≤ totalTime - dropT := max_le (by linarith) (by linarith)
  have hgp : (0:ℚ) < g := by norm_num [g]
  have key : (max 0 (t - dropT)) * (max 0 (t - dropT))
      ≤ (totalTime - dropT) * (totalTime - dropT) := mul_self_le_mul_self hq0 hq1
  simp only [closedFormHeight, hh0]
  nlinarith [key, hgp]

theorem updateBall_landed (t impact : ℚ) (b : Ball) (hl : b.landed = true) :
    updateBall t impact b = b := by
  unfold updateBall
  rw [if_neg (by simp [hl])]

theorem updateBall_clamps (t impact : ℚ) (b : Ball)
    (hd : b.dropTime ≤ t) (hl : b.landed = false)
    (hcross : b.initialHeight - 1/2 * g * (t - b.dropTime) * (t - b.dropTime) ≤ 0) :
    (updateBall t impact b).height = 0 := by
  unfold updateBall
  rw [if_pos ⟨hd, hl⟩]
  simp only [hcross, if_pos]

theorem update_terminal (s : Sim) (deltaTime speedMultiplier : ℚ)
    (hdm : 0 ≤ deltaTime * speedMultiplier)
    (hs : Inv s) (hc : completed s = true) :
    update s deltaTime speedMultiplier = s := by
  simp only [completed, Bool.and_eq_true] at hc
  obtain ⟨hs0, hs5, hbi1, hbi2⟩ := hs
  have ht : s.time = totalTime := hbi1.2.2.2.2.mp hc.1
  have harg : (if totalTime < s.time + deltaTime * speedMultiplier then totalTime
      else s.time + deltaTime * speedMultiplier) = s.time := by
    split_ifs with h
    · rw [ht]
    · have h2 : s.time + deltaTime * speedMultiplier ≤ totalTime := le_of_not_lt h
      rw [ht] at h2 ⊢
      linarith
  simp only [update, harg, updateBall_landed _ _ _ hc.1, updateBall_landed _ _ _ hc.2]

theorem dual_update_time_mono (s : Sim) (deltaTime speedMultiplier : ℚ)
    (hdm : 0 ≤ deltaTime * speedMultiplier) (ht5 : s.time ≤ totalTime) :
    s.time ≤ (update s deltaTime speedMultiplier).time := by
  simp only [update]
  split_ifs with h
  · exact ht5
  · linarith

theorem runT_eq_run (es : List (Bool × ℚ × ℚ)) (s : Sim) :
    runT s es = run s (es.map stripTimer) := by
  induction es generalizing s with
  | nil => rfl
  | cons e tl ih => exact ih (update s e.2.1 e.2.2)

end DualBallSimulation

namespace BrickThrowSimulation

theorem phase_eq_iff (p q : Phase) : p = q ↔ phaseIdx p = phaseIdx q := by
  constructor
  · intro h; rw [h]
  · cases p <;> cases q <;> intro h <;> first | rfl | (exact absurd h (by decide))

theorem brick_update_nonneg (c : Consts) (hu : 0 ≤ c.initialVelocity)
    (hmax : 0 ≤ c.maxHeight) (s : State) (deltaTime speedMultiplier : ℚ)
    (hd : 0 ≤ deltaTime) (hm : 0 ≤ speedMultiplier)
    (ht : 0 ≤ s.time) (hh : 0 ≤ s.height) :
    0 ≤ (update c s deltaTime speedMultiplier).time ∧
    0 ≤ (update c s deltaTime speedMultiplier).height := by
  have hdm : 0 ≤ deltaTime * speedMultiplier := mul_nonneg hd hm
  have htt : 0 ≤ s.time + deltaTime * speedMultiplier := by linarith
  simp only [update]
  split_ifs <;>
    constructor <;>
    simp only [] <;>
    first
      | linarith
      | nlinarith [mul_nonneg htt hu, hu]

theorem fireTimer_nonneg (s : State) (ht : 0 ≤ s.time) (hh : 0 ≤ s.height) :
    0 ≤ (fireTimer s).time ∧ 0 ≤ (fireTimer s).height := by
  rcases hsp : s.phase <;> simp [fireTimer, hsp] <;>
    first | exact ⟨ht, hh⟩ | exact hh

theorem brick_runT_nonneg (c : Consts) (hu : 0 ≤ c.initialVelocity)
    (hmax : 0 ≤ c.maxHeight) (es : List (Bool × ℚ × ℚ))
    (hes : ∀ e ∈ es, 0 ≤ e.2.1 ∧ 0 ≤ e.2.2)
    (s : State) (ht : 0 ≤ s.time) (hh : 0 ≤ s.height) :
    0 ≤ (runT c s es).time ∧ 0 ≤ (runT c s es).height := by
  induction es generalizing s with
  | nil => exact ⟨ht, hh⟩
  | cons e tl ih =>
    have he := hes e (List.mem_cons_self e tl)
    have hstep : 0 ≤ (updateT c e.1 s e.2.1 e.2.2).time ∧
        0 ≤ (updateT c e.1 s e.2.1 e.2.2).height := by
      unfold updateT
      cases he1 : e.1
      · rw [if_neg (by simp)]
        exact brick_update_nonneg c hu hmax s e.2.1 e.2.2 he.1 he.2 ht hh
      · rw [if_pos rfl]
        have hf := fireTimer_nonneg s ht hh
        exact brick_update_nonneg c hu hmax _ e.2.1 e.2.2 he.1 he.2 hf.1 hf.2
    exact ih (fun p hp => hes p (List.mem_cons_of_mem e hp)) _ hstep.1 hstep.2

theorem brick_update_landed (c : Consts) (s : State) (deltaTime speedMultiplier : ℚ)
    (hp : s.phase = Phase.landed) :
    (update c s deltaTime speedMultiplier).height = s.height ∧
    (update c s deltaTime speedMultiplier).velocity = s.velocity ∧
    (update c s deltaTime speedMultiplier).phase = Phase.landed ∧
    (update c s deltaTime speedMultiplier).trail = s.trail ∧
    (update c s deltaTime speedMultiplier).reachedTarget = s.reachedTarget ∧
    (update c s deltaTime speedMultiplier).reachedMax = s.reachedMax ∧
    (update c s deltaTime speedMultiplier).time
      = s.time + deltaTime * speedMultiplier := by
  norm_num [update, hp, phase_eq_iff, phaseIdx]

theorem brick_update_time_mono (c : Consts) (s : State)
    (deltaTime speedMultiplier : ℚ) (hdm : 0 ≤ deltaTime * speedMultiplier)
    (hthrow : s.phase = Phase.throwing →
      s.time + deltaTime * speedMultiplier ≤ 3/10) :
    s.time ≤ (update c s deltaTime speedMultiplier).time := by
  simp only [update]
  split_ifs with h1 <;> simp only [] <;>
    first
      | linarith
      | (exact absurd (hthrow h1.1) (not_le.mpr h1.2))

theorem brick_descending_clamps (c : Consts) (s : State)
    (deltaTime speedMultiplier : ℚ) (hp : s.phase = Phase.descending)
    (hcross : c.maxHeight - 1/2 * c.g * (s.time + deltaTime * speedMultiplier)
        * (s.time + deltaTime * speedMultiplier) ≤ 0) :
    (update c s deltaTime speedMultiplier).height = 0 := by
  norm_num [update, hp, phase_eq_iff, phaseIdx, hcross]

end BrickThrowSimulation

/- ======================= Claim theorems ======================= -/

/-- C1 (amended): for the time-based steppers the state after any sequence
of update calls with non-negative deltaTime and speedMultiplier matches
direct evaluation of the textbook closed-form displacement and velocity
formulas at the clamped absolute time the stepper holds; shown here for
DualBallSimulation, whose update recomputes both balls from the absolute
time rather than integrating increments. -/
theorem dualball_closed_form_refinement (ds : List (ℚ × ℚ))
    (hds : ∀ p ∈ ds, 0 ≤ p.1 ∧ 0 ≤ p.2) :
    (DualBallSimulation.run DualBallSimulation.init ds).ball1.height
      = DualBallSimulation.closedFormHeight DualBallSimulation.ball1Height 0
          (DualBallSimulation.run DualBallSimulation.init ds).time ∧
    (DualBallSimulation.run DualBallSimulation.init ds).ball1.velocity
      = DualBallSimulation.closedFormVelocity 0
          (DualBallSimulation.run DualBallSimulation.init ds).time ∧
    (DualBallSimulation.run DualBallSimulation.init ds).ball2.height
      = DualBallSimulation.closedFormHeight DualBallSimulation.ball2Height 2
          (DualBallSimulation.run DualBallSimulation.init ds).time ∧
    (DualBallSimulation.run DualBallSimulation.init ds).ball2.velocity
      = DualBallSimulation.closedFormVelocity 2
          (DualBallSimulation.run DualBallSimulation.init ds).time := by
  have h := DualBallSimulation.run_inv ds hds DualBallSimulation.init
    DualBallSimulation.inv_init
  obtain ⟨-, -, ⟨-, -, hh1, hv1, -⟩, -, -, hh2, hv2, -⟩ := h
  exact ⟨hh1, hv1, hh2, hv2⟩

/-- C1 witness: the refinement theorem instantiated on the concrete input
sequence [(2, 1), (4, 1)], whose second frame clamps the time at 5 s. -/
theorem dualball_closed_form_refinement_witness :
    (DualBallSimulation.run DualBallSimulation.init [(2, 1), (4, 1)]).ball1.height
      = DualBallSimulation.closedFormHeight DualBallSimulation.ball1Height 0
          (DualBallSimulation.run DualBallSimulation.init [(2, 1), (4, 1)]).time ∧
    (DualBallSimulation.run DualBallSimulation.init [(2, 1), (4, 1)]).ball1.velocity
      = DualBallSimulation.closedFormVelocity 0
          (DualBallSimulation.run DualBallSimulation.init [(2, 1), (4, 1)]).time ∧
    (DualBallSimulation.run DualBallSimulation.init [(2, 1), (4, 1)]).ball2.height
      = DualBallSimulation.closedFormHeight DualBallSimulation.ball2Height 2
          (DualBallSimulation.run DualBallSimulation.init [(2, 1), (4, 1)]).time ∧
    (DualBallSimulation.run DualBallSimulation.init [(2, 1), (4, 1)]).ball2.velocity
      = DualBallSimulation.closedFormVelocity 2
          (DualBallSimulation.run DualBallSimulation.init [(2, 1), (4, 1)]).time :=
  dualball_closed_form_refinement [(2, 1), (4, 1)] (by norm_num)

/-- C1 counterexample: the claim quantifies over every stepper in the
corpus, but the HalfEscapeSimulation animation advances its angle by a
fixed 0.02 rad per scheduled frame and never reads the elapsed time, so
the angle it holds after a sequence of frames is not given by evaluating
any formula at the absolute time reached: two frame sequences with the
same total duration produce different angles. -/
theorem halfesc_angle_not_closed_form :
    ¬ ∃ f : ℚ → ℚ, ∀ dts : List ℚ,
        HalfEscapeSimulation.runFrames 0 dts = f dts.sum := by
  rintro ⟨f, hf⟩
  have h1 := hf [1/10]
  have h2 := hf [1/20, 1/20]
  norm_num [HalfEscapeSimulation.runFrames, HalfEscapeSimulation.animateStep,
    HalfEscapeSimulation.angularSpeed, List.foldl, List.sum_cons, List.sum_nil] at h1 h2
  rw [← h1] at h2
  norm_num at h2

/-- C7: in the dual-ball model built from g = 9.8 with drops at t = 0 and
t = 2 and both landings at t = 5, the derived initial heights are exactly
122.5 m and 44.1 m and their difference exactly 78.4 m, hence within the
0.05 m tolerance of the expected values. -/
theorem dualball_derived_heights :
    DualBallSimulation.ball1Height = 245/2 ∧
    DualBallSimulation.ball2Height = 441/10 ∧
    DualBallSimulation.heightDifference = 392/5 ∧
    |DualBallSimulation.ball1Height - 245/2| < 1/20 ∧
    |DualBallSimulation.ball2Height - 441/10| < 1/20 ∧
    |DualBallSimulation.heightDifference - 392/5| < 1/20 := by
  norm_num [DualBallSimulation.ball1Height, DualBallSimulation.ball2Height,
    DualBallSimulation.heightDifference, DualBallSimulation.g,
    DualBallSimulation.ball1FallTime, DualBallSimulation.ball2FallTime]

/-- C2 (amended): once the terminal condition holds, further update calls
leave the kinematic fields unchanged — height, velocity, phase and trail;
DualBallSimulation also leaves its clamped elapsed-time field unchanged for
any non-negative scaled delta, but BrickThrowSimulation keeps advancing its
time field by deltaTime*speedMultiplier while in the landed phase. -/
theorem terminal_idempotence :
    (∀ (s : DualBallSimulation.Sim) (deltaTime speedMultiplier : ℚ),
        0 ≤ deltaTime * speedMultiplier → DualBallSimulation.Inv s →
        DualBallSimulation.completed s = true →
        DualBallSimulation.update s deltaTime speedMultiplier = s) ∧
    (∀ (c : BrickThrowSimulation.Consts) (s : BrickThrowSimulation.State)
        (deltaTime speedMultiplier : ℚ),
        s.phase = BrickThrowSimulation.Phase.landed →
        (BrickThrowSimulation.update c s deltaTime speedMultiplier).height = s.height ∧
        (BrickThrowSimulation.update c s deltaTime speedMultiplier).velocity = s.velocity ∧
        (BrickThrowSimulation.update c s deltaTime speedMultiplier).phase
          = BrickThrowSimulation.Phase.landed ∧
        (BrickThrowSimulation.update c s deltaTime speedMultiplier).trail = s.trail ∧
        (BrickThrowSimulation.update c s deltaTime speedMultiplier).reachedTarget
          = s.reachedTarget ∧
        (BrickThrowSimulation.update c s deltaTime speedMultiplier).reachedMax
          = s.reachedMax ∧
        (BrickThrowSimulation.update c s deltaTime speedMultiplier).time
          = s.time + deltaTime * speedMultiplier) :=
  ⟨fun s deltaTime speedMultiplier hdm hs hc =>
      DualBallSimulation.update_terminal s deltaTime speedMultiplier hdm hs hc,
   fun c s deltaTime speedMultiplier hp =>
      BrickThrowSimulation.brick_update_landed c s deltaTime speedMultiplier hp⟩

/-- C2 witness: the terminal state reached by one 5-second frame of the
dual-ball model absorbs a further update, and the landed brick state keeps
accumulating time. -/
theorem terminal_idempotence_witness :
    DualBallSimulation.update
        (DualBallSimulation.run DualBallSimulation.init [(5, 1)]) (1/2) 2
      = DualBallSimulation.run DualBallSimulation.init [(5, 1)] ∧
    (BrickThrowSimulation.update BrickThrowSimulation.sampleConsts
        BrickThrowSimulation.landedState (1/10) 1).time
      = BrickThrowSimulation.landedState.time + 1/10 * 1 :=
  ⟨terminal_idempotence.1 _ (1/2) 2 (by norm_num)
      (by norm_num [DualBallSimulation.Inv, DualBallSimulation.BallInv, DualBallSimulation.completed, DualBallSimulation.run, DualBallSimulation.update, DualBallSimulation.updateBall, DualBallSimulation.closedFormHeight, DualBallSimulation.closedFormVelocity, DualBallSimulation.init, DualBallSimulation.initBall1, DualBallSimulation.initBall2, DualBallSimulation.ball1Height, DualBallSimulation.ball2Height, DualBallSimulation.g, DualBallSimulation.ball1FallTime, DualBallSimulation.ball2FallTime, DualBallSimulation.totalTime, DualBallSimulation.ball1ImpactVelocity, DualBallSimulation.ball2ImpactVelocity, trailPush, List.foldl, max_def])
      (by norm_num [DualBallSimulation.Inv, DualBallSimulation.BallInv, DualBallSimulation.completed, DualBallSimulation.run, DualBallSimulation.update, DualBallSimulation.updateBall, DualBallSimulation.closedFormHeight, DualBallSimulation.closedFormVelocity, DualBallSimulation.init, DualBallSimulation.initBall1, DualBallSimulation.initBall2, DualBallSimulation.ball1Height, DualBallSimulation.ball2Height, DualBallSimulation.g, DualBallSimulation.ball1FallTime, DualBallSimulation.ball2FallTime, DualBallSimulation.totalTime, DualBallSimulation.ball1ImpactVelocity, DualBallSimulation.ball2ImpactVelocity, trailPush, List.foldl, max_def]),
   (terminal_idempotence.2 BrickThrowSimulation.sampleConsts
      BrickThrowSimulation.landedState (1/10) 1
      (by norm_num [BrickThrowSimulation.landedState, BrickThrowSimulation.runT, BrickThrowSimulation.updateT, BrickThrowSimulation.update, BrickThrowSimulation.fireTimer, BrickThrowSimulation.init, BrickThrowSimulation.sampleConsts, BrickThrowSimulation.consts, BrickThrowSimulation.landingRun, trailPush, List.foldl, max_def, BrickThrowSimulation.phase_eq_iff, BrickThrowSimulation.phaseIdx])).2.2.2.2.2.2⟩

/-- C2 counterexample: BrickThrowSimulation reaches the landed phase after
the concrete landing run, yet a further update call with deltaTime = 0.1
changes the elapsed-time field of its state. -/
theorem brick_update_after_landing_moves_time :
    BrickThrowSimulation.landedState.phase = BrickThrowSimulation.Phase.landed ∧
    (BrickThrowSimulation.update BrickThrowSimulation.sampleConsts
        BrickThrowSimulation.landedState (1/10) 1).time
      ≠ BrickThrowSimulation.landedState.time := by
  norm_num [BrickThrowSimulation.landedState, BrickThrowSimulation.runT, BrickThrowSimulation.updateT, BrickThrowSimulation.update, BrickThrowSimulation.fireTimer, BrickThrowSimulation.init, BrickThrowSimulation.sampleConsts, BrickThrowSimulation.consts, BrickThrowSimulation.landingRun, trailPush, List.foldl, max_def, BrickThrowSimulation.phase_eq_iff, BrickThrowSimulation.phaseIdx]

/-- C5 (amended): the elapsed-time field is non-decreasing under updates
with non-negative scaled deltas for DualBallSimulation (whose time is
clamped at totalTime); for BrickThrowSimulation it is non-decreasing only
while no phase transition resets it — its throwing-to-ascending transition
(and the apex timer callback) reset the phase-relative time to 0. -/
theorem time_monotonicity :
    (∀ (s : DualBallSimulation.Sim) (deltaTime speedMultiplier : ℚ),
        0 ≤ deltaTime * speedMultiplier →
        s.time ≤ DualBallSimulation.totalTime →
        s.time ≤ (DualBallSimulation.update s deltaTime speedMultiplier).time) ∧
    (∀ (c : BrickThrowSimulation.Consts) (s : BrickThrowSimulation.State)
        (deltaTime speedMultiplier : ℚ), 0 ≤ deltaTime * speedMultiplier →
        (s.phase = BrickThrowSimulation.Phase.throwing →
          s.time + deltaTime * speedMultiplier ≤ 3/10) →
        s.time ≤ (BrickThrowSimulation.update c s deltaTime speedMultiplier).time) :=
  ⟨fun s deltaTime speedMultiplier hdm h5 =>
      DualBallSimulation.dual_update_time_mono s deltaTime speedMultiplier hdm h5,
   fun c s deltaTime speedMultiplier hdm hth =>
      BrickThrowSimulation.brick_update_time_mono c s deltaTime speedMultiplier hdm hth⟩

/-- C5 witness: both monotonicity statements instantiated at the initial
states with concrete small deltas. -/
theorem time_monotonicity_witness :
    DualBallSimulation.init.time
      ≤ (DualBallSimulation.update DualBallSimulation.init 1 1).time ∧
    (BrickThrowSimulation.init BrickThrowSimulation.sampleConsts).time
      ≤ (BrickThrowSimulation.update BrickThrowSimulation.sampleConsts
          (BrickThrowSimulation.init BrickThrowSimulation.sampleConsts) (1/5) 1).time :=
  ⟨time_monotonicity.1 _ 1 1 (by norm_num)
      (by norm_num [DualBallSimulation.init, DualBallSimulation.totalTime]),
   time_monotonicity.2 _ _ (1/5) 1 (by norm_num)
      (by norm_num [BrickThrowSimulation.init, BrickThrowSimulation.sampleConsts,
        BrickThrowSimulation.consts])⟩

/-- C5 counterexample: from reset, two BrickThrowSimulation updates with
deltaTime = 0.2 at speed 1 make the observed time field go 0.2 then 0:
the throwing-to-ascending transition resets it, so time decreases across
consecutive calls even though every delta is non-negative. -/
theorem brick_time_decreases :
    (BrickThrowSimulation.update BrickThrowSimulation.sampleConsts
        (BrickThrowSimulation.update BrickThrowSimulation.sampleConsts
          (BrickThrowSimulation.init BrickThrowSimulation.sampleConsts) (1/5) 1)
        (1/5) 1).time
      < (BrickThrowSimulation.update BrickThrowSimulation.sampleConsts
          (BrickThrowSimulation.init BrickThrowSimulation.sampleConsts) (1/5) 1).time := by
  norm_num [BrickThrowSimulation.landedState, BrickThrowSimulation.runT, BrickThrowSimulation.updateT, BrickThrowSimulation.update, BrickThrowSimulation.fireTimer, BrickThrowSimulation.init, BrickThrowSimulation.sampleConsts, BrickThrowSimulation.consts, BrickThrowSimulation.landingRun, trailPush, List.foldl, max_def, BrickThrowSimulation.phase_eq_iff, BrickThrowSimulation.phaseIdx]

/-- C6 (amended): a DualBallSimulation run is a function of the initial
state and the (deltaTime, speedMultiplier) sequence alone: the flags
recording when wall-clock timer callbacks fire between frames are ignored,
its update being a pure function of its arguments and prior state. -/
theorem dualball_run_deterministic (s : DualBallSimulation.Sim)
    (es : List (Bool × ℚ × ℚ)) :
    DualBallSimulation.runT s es
      = DualBallSimulation.run s (es.map stripTimer) :=
  DualBallSimulation.runT_eq_run es s

/-- C6 counterexample: two BrickThrowSimulation runs fed identical
(deltaTime, speedMultiplier) sequences from the same reset state end in
different states, in the registration-aware model: the third frame begins
in the atMax phase and registers the 800 ms apex setTimeout, and the runs
differ only in whether the wall clock delivers that pending callback
before the fourth frame, so the state evolution depends on the wall clock
and not only on the update arguments and prior state. -/
theorem brick_run_depends_on_timer :
    BrickThrowSimulation.timerRunA.map BrickThrowSimulation.stripFrame
      = BrickThrowSimulation.timerRunB.map BrickThrowSimulation.stripFrame ∧
    (BrickThrowSimulation.runTimers BrickThrowSimulation.sampleConsts
        (BrickThrowSimulation.init BrickThrowSimulation.sampleConsts)
        BrickThrowSimulation.timerRunA).1
      ≠ (BrickThrowSimulation.runTimers BrickThrowSimulation.sampleConsts
        (BrickThrowSimulation.init BrickThrowSimulation.sampleConsts)
        BrickThrowSimulation.timerRunB).1 := by
  refine ⟨rfl, ?_⟩
  norm_num [BrickThrowSimulation.runTimers, BrickThrowSimulation.stepTimers,
    BrickThrowSimulation.update, BrickThrowSimulation.fireTargetTimer,
    BrickThrowSimulation.fireApexTimer, BrickThrowSimulation.init,
    BrickThrowSimulation.sampleConsts, BrickThrowSimulation.consts,
    BrickThrowSimulation.timerRunA, BrickThrowSimulation.timerRunB,
    trailPush, List.foldl, max_def, BrickThrowSimulation.State.mk.injEq,
    BrickThrowSimulation.phase_eq_iff, BrickThrowSimulation.phaseIdx]

/-- C3 (amended): the animation loops that clamp — dualball (main loop),
wastage, stonethrow, orbitalspeed, satmass (main loop), forcelaw and
several unnamed pages — compute dt = min((timestamp - lastTimestamp)/1000,
0.1), so their frame delta never exceeds 0.1 s; the freefall and
wavespeed drivers and the second loops of the dualball, satmass and
part_003 files pass the unclamped (timestamp - lastTimestamp)/1000, which
is unbounded, and the gravity driver passes raw milliseconds. -/
theorem frame_delta_clamp :
    (∀ timestamp lastTimestamp : ℚ,
        DriverLoop.clampedDelta timestamp lastTimestamp ≤ 1/10) ∧
    (∀ bound : ℚ, ∃ timestamp lastTimestamp : ℚ,
        bound < DriverLoop.freefallDelta timestamp lastTimestamp) := by
  constructor
  · intro timestamp lastTimestamp
    exact min_le_right _ _
  · intro bound
    refine ⟨(bound + 1) * 1000, 0, ?_⟩
    simp only [DriverLoop.freefallDelta]
    rw [sub_zero, mul_div_assoc]
    norm_num

/-- C3 counterexample: the freefall driver (animate, freefall simulation
line 348) computes its frame delta without the min clamp: after a 500 ms
frame gap it passes 0.5 s to the stepper, exceeding the claimed 0.1 s
bound and disagreeing with the clamped formula of the other drivers. -/
theorem freefall_delta_exceeds_clamp :
    DriverLoop.freefallDelta 500 0 = 1/2 ∧
    1/10 < DriverLoop.freefallDelta 500 0 ∧
    DriverLoop.freefallDelta 500 0 ≠ DriverLoop.clampedDelta 500 0 := by
  norm_num [DriverLoop.freefallDelta, DriverLoop.clampedDelta, min_def]

/-- C4: along any sequence of update calls with non-negative deltaTime and
speedMultiplier the observed height fields stay non-negative — both
DualBallSimulation balls, and BrickThrowSimulation for any non-negative
initial speed — and whenever the closed-form displacement at the advanced
time is at or below ground level the steppers write exactly 0 into the
height field before returning. -/
theorem height_nonneg :
    (∀ ds : List (ℚ × ℚ), (∀ p ∈ ds, 0 ≤ p.1 ∧ 0 ≤ p.2) →
        0 ≤ (DualBallSimulation.run DualBallSimulation.init ds).ball1.height ∧
        0 ≤ (DualBallSimulation.run DualBallSimulation.init ds).ball2.height) ∧
    (∀ u : ℚ, 0 ≤ u → ∀ es : List (Bool × ℚ × ℚ),
        (∀ e ∈ es, 0 ≤ e.2.1 ∧ 0 ≤ e.2.2) →
        0 ≤ (BrickThrowSimulation.runT (BrickThrowSimulation.consts u)
              (BrickThrowSimulation.init (BrickThrowSimulation.consts u)) es).height) ∧
    (∀ (t impact : ℚ) (b : DualBallSimulation.Ball), b.dropTime ≤ t →
        b.landed = false →
        b.initialHeight - 1/2 * DualBallSimulation.g * (t - b.dropTime)
            * (t - b.dropTime) ≤ 0 →
        (DualBallSimulation.updateBall t impact b).height = 0) ∧
    (∀ (c : BrickThrowSimulation.Consts) (s : BrickThrowSimulation.State)
        (deltaTime speedMultiplier : ℚ),
        s.phase = BrickThrowSimulation.Phase.descending →
        c.maxHeight - 1/2 * c.g * (s.time + deltaTime * speedMultiplier)
            * (s.time + deltaTime * speedMultiplier) ≤ 0 →
        (BrickThrowSimulation.update c s deltaTime speedMultiplier).height = 0) := by
  refine ⟨?_, ?_, ?_, ?_⟩
  · intro ds hds
    have h := DualBallSimulation.run_inv ds hds DualBallSimulation.init
      DualBallSimulation.inv_init
    obtain ⟨h0, h5, ⟨-, -, hh1, -, -⟩, -, -, hh2, -, -⟩ := h
    constructor
    · rw [hh1]
      exact DualBallSimulation.closedFormHeight_nonneg 0 _ _
        (by norm_num [DualBallSimulation.totalTime])
        (by norm_num [DualBallSimulation.ball1Height, DualBallSimulation.g,
          DualBallSimulation.ball1FallTime, DualBallSimulation.totalTime]) h5
    · rw [hh2]
      exact DualBallSimulation.closedFormHeight_nonneg 2 _ _
        (by norm_num [DualBallSimulation.totalTime])
        (by norm_num [DualBallSimulation.ball2Height, DualBallSimulation.g,
          DualBallSimulation.ball2FallTime, DualBallSimulation.totalTime]) h5
  · intro u hu es hes
    exact (BrickThrowSimulation.brick_runT_nonneg _
      (by simpa [BrickThrowSimulation.consts] using hu)
      (by norm_num [BrickThrowSimulation.consts]) es hes _
      (by norm_num [BrickThrowSimulation.init])
      (by norm_num [BrickThrowSimulation.init])).2
  · intro t impact b hd hl hcross
    exact DualBallSimulation.updateBall_clamps t impact b hd hl hcross
  · intro c s deltaTime speedMultiplier hp hcross
    exact BrickThrowSimulation.brick_descending_clamps c s deltaTime
      speedMultiplier hp hcross

/-- C4 witness: the non-negativity statements instantiated on concrete
runs, and the exact-zero clamps instantiated at landing inputs. -/
theorem height_nonneg_witness :
    (0 ≤ (DualBallSimulation.run DualBallSimulation.init [(3, 2)]).ball1.height ∧
     0 ≤ (DualBallSimulation.run DualBallSimulation.init [(3, 2)]).ball2.height) ∧
    0 ≤ (BrickThrowSimulation.runT (BrickThrowSimulation.consts (77/5))
          (BrickThrowSimulation.init (BrickThrowSimulation.consts (77/5)))
          [(false, 2/5, 1)]).height ∧
    (DualBallSimulation.updateBall 5 49 DualBallSimulation.initBall1).height = 0 ∧
    (BrickThrowSimulation.update (BrickThrowSimulation.consts (77/5))
        { time := 0, height := 59/5, velocity := 0,
          phase := BrickThrowSimulation.Phase.descending, reachedTarget := true,
          reachedMax := true, trail := [], currentKE := 0, currentPE := 118,
          currentTotal := 118 } (8/5) 1).height = 0 :=
  ⟨height_nonneg.1 [(3, 2)] (by norm_num),
   height_nonneg.2.1 (77/5) (by norm_num) [(false, 2/5, 1)] (by norm_num),
   height_nonneg.2.2.1 5 49 DualBallSimulation.initBall1
     (by norm_num [DualBallSimulation.initBall1])
     (by norm_num [DualBallSimulation.initBall1])
     (by norm_num [DualBallSimulation.initBall1, DualBallSimulation.ball1Height,
       DualBallSimulation.g, DualBallSimulation.ball1FallTime]),
   height_nonneg.2.2.2 (BrickThrowSimulation.consts (77/5)) _ (8/5) 1 rfl
     (by norm_num [BrickThrowSimulation.consts])⟩

/-- C8: in the half-escape-speed model the constructed orbital speed is
half the escape speed, the orbit radius is twice the Earth radius, the
displayed height is exactly one Earth radius, and the constructed speed
and radius are consistent with the circular-orbit relation
v^2 r = G M. -/
theorem halfesc_orbit_geometry :
    HalfEscapeSimulation.v_orbital = HalfEscapeSimulation.v_escape / 2 ∧
    HalfEscapeSimulation.orbitRadius = 2 * HalfEscapeSimulation.R_earth ∧
    HalfEscapeSimulation.height = HalfEscapeSimulation.R_earth ∧
    HalfEscapeSimulation.v_orbital ^ 2 * HalfEscapeSimulation.orbitRadius
      = HalfEscapeSimulation.G * HalfEscapeSimulation.M_earth := by
  refine ⟨rfl, rfl, rfl, ?_⟩
  have hR : (0:ℝ) < HalfEscapeSimulation.R_earth := by
    norm_num [HalfEscapeSimulation.R_earth]
  have hGM : (0:ℝ) ≤ 2 * HalfEscapeSimulation.G * HalfEscapeSimulation.M_earth
      / HalfEscapeSimulation.R_earth := by
    apply div_nonneg _ (le_of_lt hR)
    norm_num [HalfEscapeSimulation.G, HalfEscapeSimulation.M_earth]
  rw [HalfEscapeSimulation.v_orbital, HalfEscapeSimulation.v_escape,
    HalfEscapeSimulation.orbitRadius, div_pow, Real.sq_sqrt hGM]
  field_simp
  ring

/-- C9: with the orbital radii 1e12 m and 1e10 m around the solar mass,
the periods computed by calculatePeriod satisfy T1/T2 = 1000 exactly,
hence within the claimed 1 percent of 1000. -/
theorem kepler_period_ratio :
    KeplerSimulation.periodRatio = 1000 ∧
    |KeplerSimulation.periodRatio - 1000| < 10 := by
  have hGM : (0:ℝ) < KeplerSimulation.G * KeplerSimulation.M_sun := by
    norm_num [KeplerSimulation.G, KeplerSimulation.M_sun]
  have hb : (0:ℝ) < KeplerSimulation.R2 ^ 3
      / (KeplerSimulation.G * KeplerSimulation.M_sun) := by
    apply div_pos _ hGM
    norm_num [KeplerSimulation.R2]
  have ha : KeplerSimulation.R1 ^ 3 / (KeplerSimulation.G * KeplerSimulation.M_sun)
      = 1000 ^ 2 * (KeplerSimulation.R2 ^ 3
          / (KeplerSimulation.G * KeplerSimulation.M_sun)) := by
    rw [KeplerSimulation.R1, KeplerSimulation.R2, mul_div_assoc']
    congr 1
    norm_num
  have hmain : KeplerSimulation.periodRatio = 1000 := by
    rw [KeplerSimulation.periodRatio, KeplerSimulation.T1, KeplerSimulation.T2,
      KeplerSimulation.calculatePeriod, KeplerSimulation.calculatePeriod, ha,
      Real.sqrt_mul (by norm_num : (0:ℝ) ≤ 1000 ^ 2),
      Real.sqrt_sq (by norm_num : (0:ℝ) ≤ 1000)]
    have hs : 0 < Real.sqrt (KeplerSimulation.R2 ^ 3
        / (KeplerSimulation.G * KeplerSimulation.M_sun)) := Real.sqrt_pos.mpr hb
    have hpi : (0:ℝ) < Real.pi := Real.pi_pos
    rw [show 2 * Real.pi * (1000 * Real.sqrt (KeplerSimulation.R2 ^ 3
        / (KeplerSimulation.G * KeplerSimulation.M_sun)))
        = 1000 * (2 * Real.pi * Real.sqrt (KeplerSimulation.R2 ^ 3
        / (KeplerSimulation.G * KeplerSimulation.M_sun))) from by ring]
    rw [mul_div_assoc, div_self (by positivity), mul_one]
  refine ⟨hmain, ?_⟩
  rw [hmain]
  norm_num

end Physics
